import Mathlib

/-!
Shallow embedding of the surface_gpe driver (src/module/surface_gpe.c).

The driver matches the running system against a DMI table
(`dmi_lid_device_table`), and — when a match is found — registers a
platform device whose probe enables the lid GPE as a wake source,
whose suspend/resume hooks arm/disarm the GPE wake mask, and whose
remove hook restores the default (disarmed, disabled) behaviour.

External calls (ACPI firmware interface and the platform-device
framework) are modelled by oracles deciding which calls succeed,
together with an explicit firmware state (wake mask, GPE enable
reference count, wake-marking) and an explicit host state (what the
platform framework has registered).  Each driver entry point is a pure
function returning its status code, the ordered list of firmware calls
it issued, and the resulting states.
-/

set_option linter.unusedVariables false

/-- `struct surface_lid_device`: ACPI path of the lid device and the GPE number. -/
structure surface_lid_device where
  acpi_path : String
  gpe_number : Nat
deriving DecidableEq

def lid_device_l17 : surface_lid_device := ⟨"\\_SB.LID0", 0x17⟩

def lid_device_l4D : surface_lid_device := ⟨"\\_SB.LID0", 0x4D⟩

def lid_device_l4F : surface_lid_device := ⟨"\\_SB.LID0", 0x4F⟩

def lid_device_l57 : surface_lid_device := ⟨"\\_SB.LID0", 0x57⟩

/-- The DMI identity attributes the table's entries test (`DMI_SYS_VENDOR`,
`DMI_PRODUCT_NAME`, `DMI_PRODUCT_SKU`). -/
inductive DmiField where
  | sys_vendor
  | product_name
  | product_sku
deriving DecidableEq

/-- The running system's DMI identity strings. -/
structure SystemIdentity where
  sys_vendor : String
  product_name : String
  product_sku : String
deriving DecidableEq

def SystemIdentity.field (id : SystemIdentity) : DmiField → String
  | .sys_vendor => id.sys_vendor
  | .product_name => id.product_name
  | .product_sku => id.product_sku

/-- One `DMI_EXACT_MATCH(field, value)` condition. -/
structure DmiMatchCond where
  field : DmiField
  value : String
deriving DecidableEq

/-- One entry of a `struct dmi_system_id` table: its conditions and its
`driver_data` (here always a `surface_lid_device`, as in the source table). -/
structure DmiSystemId where
  ident : String
  matchConds : List DmiMatchCond
  driver_data : surface_lid_device
deriving DecidableEq

/-- An entry matches when every one of its `DMI_EXACT_MATCH` conditions holds
(exact, case-sensitive string equality, as `dmi_matches` does for exact_match). -/
def dmiMatches (id : SystemIdentity) (e : DmiSystemId) : Bool :=
  e.matchConds.all fun c => id.field c.field == c.value

/-- `dmi_first_match`: scan the table in order, return the first entry all of
whose conditions hold, or none. -/
def dmi_first_match (id : SystemIdentity) : List DmiSystemId → Option DmiSystemId
  | [] => none
  | e :: rest => if dmiMatches id e then some e else dmi_first_match id rest

/-- `dmi_lid_device_table` from the source, in source order. -/
def dmi_lid_device_table : List DmiSystemId :=
  [ ⟨"Surface Pro 4",
      [⟨.sys_vendor, "Microsoft Corporation"⟩, ⟨.product_name, "Surface Pro 4"⟩],
      lid_device_l17⟩,
    ⟨"Surface Pro 5",
      [⟨.sys_vendor, "Microsoft Corporation"⟩, ⟨.product_sku, "Surface_Pro_1796"⟩],
      lid_device_l4F⟩,
    ⟨"Surface Pro 5 (LTE)",
      [⟨.sys_vendor, "Microsoft Corporation"⟩, ⟨.product_sku, "Surface_Pro_1807"⟩],
      lid_device_l4F⟩,
    ⟨"Surface Pro 6",
      [⟨.sys_vendor, "Microsoft Corporation"⟩, ⟨.product_name, "Surface Pro 6"⟩],
      lid_device_l4F⟩,
    ⟨"Surface Pro 7",
      [⟨.sys_vendor, "Microsoft Corporation"⟩, ⟨.product_name, "Surface Pro 7"⟩],
      lid_device_l4D⟩,
    ⟨"Surface Book 1",
      [⟨.sys_vendor, "Microsoft Corporation"⟩, ⟨.product_name, "Surface Book"⟩],
      lid_device_l17⟩,
    ⟨"Surface Book 2",
      [⟨.sys_vendor, "Microsoft Corporation"⟩, ⟨.product_name, "Surface Book 2"⟩],
      lid_device_l17⟩,
    ⟨"Surface Book 3",
      [⟨.sys_vendor, "Microsoft Corporation"⟩, ⟨.product_name, "Surface Book 3"⟩],
      lid_device_l4D⟩,
    ⟨"Surface Laptop 1",
      [⟨.sys_vendor, "Microsoft Corporation"⟩, ⟨.product_name, "Surface Laptop"⟩],
      lid_device_l57⟩,
    ⟨"Surface Laptop 2",
      [⟨.sys_vendor, "Microsoft Corporation"⟩, ⟨.product_name, "Surface Laptop 2"⟩],
      lid_device_l57⟩,
    ⟨"Surface Laptop 3 (Intel 13)",
      [⟨.sys_vendor, "Microsoft Corporation"⟩, ⟨.product_sku, "Surface_Laptop_3_1867:1868"⟩],
      lid_device_l4D⟩ ]

/-! ## Firmware interface model -/

/-- The firmware calls the driver can issue. -/
inductive FwCall where
  | getHandle (path : String)
  | markGpeForWake (gpe : Nat)
  | enableGpe (gpe : Nat)
  | disableGpe (gpe : Nat)
  | setGpeWakeMask (gpe : Nat) (enable : Bool)
deriving DecidableEq

/-- Oracle deciding which firmware calls succeed (AE_OK) and which fail. -/
structure AcpiFw where
  getHandleOk : String → Bool
  markOk : Nat → Bool
  enableOk : Nat → Bool
  disableOk : Nat → Bool
  setWakeMaskOk : Nat → Bool → Bool

/-- Observable firmware-side state: per-GPE wake mask, enable reference
count, and wake-marking. -/
@[ext]
structure FwState where
  wakeMask : Nat → Bool
  gpeEnabled : Nat → Nat
  markedForWake : Nat → Bool

/-- Execute one firmware call: returns whether it succeeded and the new
firmware state (unchanged on failure). -/
def runCall (acpi : AcpiFw) (s : FwState) : FwCall → Bool × FwState
  | .getHandle p => (acpi.getHandleOk p, s)
  | .markGpeForWake g =>
      if acpi.markOk g then
        (true, { s with markedForWake := fun x => if x = g then true else s.markedForWake x })
      else (false, s)
  | .enableGpe g =>
      if acpi.enableOk g then
        (true, { s with gpeEnabled := fun x => if x = g then s.gpeEnabled g + 1 else s.gpeEnabled x })
      else (false, s)
  | .disableGpe g =>
      if acpi.disableOk g then
        (true, { s with gpeEnabled := fun x => if x = g then s.gpeEnabled g - 1 else s.gpeEnabled x })
      else (false, s)
  | .setGpeWakeMask g e =>
      if acpi.setWakeMaskOk g e then
        (true, { s with wakeMask := fun x => if x = g then e else s.wakeMask x })
      else (false, s)

def EFAULT : Int := 14

def ENODEV : Int := 19

def ENOMEM : Int := 12

/-- Result of a lid wakeup operation: status, firmware calls issued (in
order), resulting firmware state. -/
structure LidOpResult where
  ret : Int
  calls : List FwCall
  fw : FwState

/-- `surface_lid_enable_wakeup`: one `acpi_set_gpe_wake_mask` call with
`ACPI_GPE_ENABLE` or `ACPI_GPE_DISABLE`; any failure becomes `-EFAULT`. -/
def surface_lid_enable_wakeup (acpi : AcpiFw) (s : FwState) (dev : surface_lid_device)
    (enable : Bool) : LidOpResult :=
  let c := FwCall.setGpeWakeMask dev.gpe_number enable
  let r := runCall acpi s c
  if r.1 then ⟨0, [c], r.2⟩ else ⟨-EFAULT, [c], r.2⟩

/-- `surface_gpe_suspend`: arm the wake mask for the registered lid device. -/
def surface_gpe_suspend (acpi : AcpiFw) (s : FwState) (ldev : surface_lid_device) : LidOpResult :=
  surface_lid_enable_wakeup acpi s ldev true

/-- `surface_gpe_resume`: disarm the wake mask for the registered lid device. -/
def surface_gpe_resume (acpi : AcpiFw) (s : FwState) (ldev : surface_lid_device) : LidOpResult :=
  surface_lid_enable_wakeup acpi s ldev false

/-- Result of probe/remove: status, firmware calls, firmware state, and the
device's drvdata afterwards. -/
structure ProbeResult where
  ret : Int
  calls : List FwCall
  fw : FwState
  drvdata : Option surface_lid_device

/-- `surface_gpe_probe`: `-ENODEV` without platform data; otherwise look up
the ACPI handle, mark the GPE for wake, enable it, set its wake mask to
disabled (best-effort disable on failure of that last step), then set
drvdata.  Each firmware failure returns `-EFAULT`. -/
def surface_gpe_probe (acpi : AcpiFw) (s : FwState)
    (platform_data : Option surface_lid_device) : ProbeResult :=
  match platform_data with
  | none => ⟨-ENODEV, [], s, none⟩
  | some dev =>
    let c1 := FwCall.getHandle dev.acpi_path
    let r1 := runCall acpi s c1
    if !r1.1 then ⟨-EFAULT, [c1], r1.2, none⟩ else
    let c2 := FwCall.markGpeForWake dev.gpe_number
    let r2 := runCall acpi r1.2 c2
    if !r2.1 then ⟨-EFAULT, [c1, c2], r2.2, none⟩ else
    let c3 := FwCall.enableGpe dev.gpe_number
    let r3 := runCall acpi r2.2 c3
    if !r3.1 then ⟨-EFAULT, [c1, c2, c3], r3.2, none⟩ else
    let w := surface_lid_enable_wakeup acpi r3.2 dev false
    if w.ret ≠ 0 then
      let c5 := FwCall.disableGpe dev.gpe_number
      let r5 := runCall acpi w.fw c5
      ⟨w.ret, [c1, c2, c3] ++ w.calls ++ [c5], r5.2, none⟩
    else
      ⟨0, [c1, c2, c3] ++ w.calls, w.fw, some dev⟩

/-- `surface_gpe_remove`: unconditionally set the wake mask to disabled and
disable the GPE (ignoring both statuses), clear drvdata, return 0. -/
def surface_gpe_remove (acpi : AcpiFw) (s : FwState) (dev : surface_lid_device) : ProbeResult :=
  let w := surface_lid_enable_wakeup acpi s dev false
  let c2 := FwCall.disableGpe dev.gpe_number
  let r2 := runCall acpi w.fw c2
  ⟨0, w.calls ++ [c2], r2.2, none⟩

/-! ## Module init / exit model -/

/-- What the platform-device framework holds on the driver's behalf. -/
structure HostState where
  driverRegistered : Bool
  deviceAllocated : Bool
  deviceAdded : Bool
  platformData : Option surface_lid_device
  surface_gpe_device : Bool
deriving DecidableEq

/-- The state before module init: nothing registered, global pointer unset. -/
def hostState0 : HostState := ⟨false, false, false, none, false⟩

/-- Oracle for the platform-framework calls made by `surface_gpe_init`:
status of `platform_driver_register`, success of `platform_device_alloc`,
status of `platform_device_add_data`, status of `platform_device_add`
(0 meaning success). -/
structure HostFaults where
  driverRegisterStatus : Int
  deviceAllocOk : Bool
  addDataStatus : Int
  deviceAddStatus : Int

structure InitResult where
  ret : Int
  host : HostState

/-- `surface_gpe_init`: clear the global device pointer, DMI-match; on no
match return 0 inert.  Otherwise register the driver, allocate the device,
attach the lid descriptor, add the device — undoing the completed steps on
each failure — and finally publish the global device pointer. -/
def surface_gpe_init (id : SystemIdentity) (hf : HostFaults) : InitResult :=
  match dmi_first_match id dmi_lid_device_table with
  | none => ⟨0, hostState0⟩
  | some m =>
    let lid := m.driver_data
    if hf.driverRegisterStatus ≠ 0 then ⟨hf.driverRegisterStatus, hostState0⟩ else
    let s1 : HostState := { hostState0 with driverRegistered := true }
    if !hf.deviceAllocOk then
      ⟨-ENOMEM, { s1 with driverRegistered := false }⟩
    else
    let s2 : HostState := { s1 with deviceAllocated := true }
    if hf.addDataStatus ≠ 0 then
      ⟨hf.addDataStatus, { s2 with deviceAllocated := false, driverRegistered := false }⟩
    else
    let s3 : HostState := { s2 with platformData := some lid }
    if hf.deviceAddStatus ≠ 0 then
      ⟨hf.deviceAddStatus,
        { s3 with deviceAllocated := false, platformData := none, driverRegistered := false }⟩
    else
    let s4 : HostState := { s3 with deviceAdded := true }
    ⟨0, { s4 with surface_gpe_device := true }⟩

/-- The spec's `on_init`: module init, then — when the platform device was
added — the framework invokes the driver's probe on it. -/
structure OnInitResult where
  ret : Int
  host : HostState
  probeRet : Option Int
  calls : List FwCall
  fw : FwState
  drvdata : Option surface_lid_device

def on_init (id : SystemIdentity) (hf : HostFaults) (acpi : AcpiFw) (s : FwState) : OnInitResult :=
  let r := surface_gpe_init id hf
  if r.host.deviceAdded then
    let p := surface_gpe_probe acpi s r.host.platformData
    ⟨r.ret, r.host, some p.ret, p.calls, p.fw, p.drvdata⟩
  else ⟨r.ret, r.host, none, [], s, none⟩

structure ExitResult where
  host : HostState
  calls : List FwCall
  fw : FwState

/-- `surface_gpe_exit`: a pure no-op when the global device pointer is
unset; otherwise unregister the device (running the driver's remove when
the device is bound) and the driver. -/
def surface_gpe_exit (acpi : AcpiFw) (hs : HostState) (drvdata : Option surface_lid_device)
    (s : FwState) : ExitResult :=
  if hs.surface_gpe_device = false then ⟨hs, [], s⟩
  else
    match drvdata with
    | some dev =>
      let r := surface_gpe_remove acpi s dev
      ⟨hostState0, r.calls, r.fw⟩
    | none => ⟨hostState0, [], s⟩

/-! ## Concrete oracles and identities used by witnesses -/

/-- Firmware oracle on which every call succeeds. -/
def acpiAllOk : AcpiFw := ⟨fun _ => true, fun _ => true, fun _ => true, fun _ => true, fun _ _ => true⟩

/-- Firmware state with everything disabled and masked off. -/
def fwState0 : FwState := ⟨fun _ => false, fun _ => 0, fun _ => false⟩

/-- Host-framework oracle on which every call succeeds. -/
def hostAllOk : HostFaults := ⟨0, true, 0, 0⟩

/-- An identity satisfying both the Surface Pro 4 entry (vendor+name) and
the Surface Pro 5 entry (vendor+SKU). -/
def identOverlap : SystemIdentity :=
  ⟨"Microsoft Corporation", "Surface Pro 4", "Surface_Pro_1796"⟩

/-- A Surface Pro 4 identity. -/
def identSP4 : SystemIdentity := ⟨"Microsoft Corporation", "Surface Pro 4", "SP4"⟩

/-- An identity no table entry matches. -/
def identOther : SystemIdentity := ⟨"Acme Corp", "Acme Pro 5", "Acme_5"⟩

/-! ## Claims -/

/-- C1: for every identity and every ordered table, the matcher returns the
entry (hence the wake-source descriptor) at the earliest satisfied index:
if the entry at index i is satisfied and no earlier entry is, `dmi_first_match`
returns that entry, so when two or more entries are satisfied the earliest
one in table order wins. -/
theorem dmi_first_match_earliest (id : SystemIdentity) (table : List DmiSystemId)
    (i : Nat) (hi : i < table.length)
    (hmatch : dmiMatches id (table.get ⟨i, hi⟩) = true)
    (hfirst : ∀ j, (hj : j < i) → dmiMatches id (table.get ⟨j, Nat.lt_trans hj hi⟩) = false) :
    dmi_first_match id table = some (table.get ⟨i, hi⟩) ∧
    (dmi_first_match id table).map DmiSystemId.driver_data =
      some (table.get ⟨i, hi⟩).driver_data := by
  induction table generalizing i with
  | nil => exact absurd hi (Nat.not_lt_zero i)
  | cons e rest ih =>
    cases i with
    | zero =>
      simp only [List.get] at hmatch
      simp [dmi_first_match, hmatch]
    | succ n =>
      have h0 : dmiMatches id e = false := hfirst 0 (Nat.succ_pos n)
      have hn : n < rest.length := Nat.lt_of_succ_lt_succ hi
      have hm : dmiMatches id (rest.get ⟨n, hn⟩) = true := hmatch
      have hf : ∀ j, (hj : j < n) →
          dmiMatches id (rest.get ⟨j, Nat.lt_trans hj hn⟩) = false := by
        intro j hj
        exact hfirst (j + 1) (Nat.succ_lt_succ hj)
      have := ih n hn hm hf
      simp only [dmi_first_match, h0, Bool.false_eq_true, if_false]
      exact this

/-- C1 witness: `identOverlap` satisfies both entry 0 (Surface Pro 4) and
entry 1 (Surface Pro 5, by SKU); the matcher returns entry 0. -/
theorem dmi_first_match_earliest_witness :
    dmiMatches identOverlap (dmi_lid_device_table.get ⟨0, by decide⟩) = true ∧
    dmiMatches identOverlap (dmi_lid_device_table.get ⟨1, by decide⟩) = true ∧
    dmi_first_match identOverlap dmi_lid_device_table =
      some (dmi_lid_device_table.get ⟨0, by decide⟩) := by
  refine ⟨by decide, by decide, ?_⟩
  exact (dmi_first_match_earliest identOverlap dmi_lid_device_table 0 (by decide)
    (by decide) (fun j hj => absurd hj (Nat.not_lt_zero j))).1

/-- C2: when no table entry matches the identity, `dmi_first_match` returns
none and `on_init` returns its skip outcome: status 0, no firmware calls at
all, the host state untouched (nothing registered, global pointer unset),
the firmware state unchanged, and no drvdata. -/
theorem on_init_no_match (id : SystemIdentity) (hf : HostFaults) (acpi : AcpiFw) (s : FwState)
    (h : dmi_first_match id dmi_lid_device_table = none) :
    (on_init id hf acpi s).ret = 0 ∧
    (on_init id hf acpi s).calls = [] ∧
    (on_init id hf acpi s).probeRet = none ∧
    (on_init id hf acpi s).host = hostState0 ∧
    (on_init id hf acpi s).drvdata = none ∧
    (on_init id hf acpi s).fw = s := by
  unfold on_init surface_gpe_init
  rw [h]
  simp [hostState0]

/-- C2 witness: `identOther` matches no entry; `on_init` is a pure skip. -/
theorem on_init_no_match_witness :
    dmi_first_match identOther dmi_lid_device_table = none ∧
    (on_init identOther hostAllOk acpiAllOk fwState0).ret = 0 ∧
    (on_init identOther hostAllOk acpiAllOk fwState0).calls = [] := by
  have h : dmi_first_match identOther dmi_lid_device_table = none := by decide
  have := on_init_no_match identOther hostAllOk acpiAllOk fwState0 h
  exact ⟨h, this.1, this.2.1⟩

/-- C6: calling suspend twice in a row is idempotent: the second call leaves
the firmware state exactly as after the first, returns the same status, and
each call's only externally observable effect is its single
`set_wake_mask(gpe, enabled)` call; when that call succeeds, the wake mask
is armed. -/
theorem surface_gpe_suspend_idempotent (acpi : AcpiFw) (s : FwState) (dev : surface_lid_device) :
    (surface_gpe_suspend acpi (surface_gpe_suspend acpi s dev).fw dev).fw =
      (surface_gpe_suspend acpi s dev).fw ∧
    (surface_gpe_suspend acpi (surface_gpe_suspend acpi s dev).fw dev).ret =
      (surface_gpe_suspend acpi s dev).ret ∧
    (surface_gpe_suspend acpi s dev).calls = [FwCall.setGpeWakeMask dev.gpe_number true] ∧
    (surface_gpe_suspend acpi (surface_gpe_suspend acpi s dev).fw dev).calls =
      [FwCall.setGpeWakeMask dev.gpe_number true] ∧
    (acpi.setWakeMaskOk dev.gpe_number true = true →
      (surface_gpe_suspend acpi s dev).fw.wakeMask dev.gpe_number = true) := by
  unfold surface_gpe_suspend surface_lid_enable_wakeup runCall
  by_cases hok : acpi.setWakeMaskOk dev.gpe_number true
  · refine ⟨?_, by simp [hok], by simp [hok], by simp [hok], by simp [hok]⟩
    simp only [hok, if_true]
    ext x
    · simp
    · rfl
    · rfl
  · rw [Bool.not_eq_true] at hok
    simp [hok]

/-- C6 witness: with every call succeeding, two suspends from the all-off
state coincide with one, and the mask ends armed. -/
theorem surface_gpe_suspend_idempotent_witness :
    (surface_gpe_suspend acpiAllOk (surface_gpe_suspend acpiAllOk fwState0 lid_device_l17).fw
        lid_device_l17).fw = (surface_gpe_suspend acpiAllOk fwState0 lid_device_l17).fw ∧
    (surface_gpe_suspend acpiAllOk fwState0 lid_device_l17).fw.wakeMask 0x17 = true := by
  have h := surface_gpe_suspend_idempotent acpiAllOk fwState0 lid_device_l17
  exact ⟨h.1, h.2.2.2.2 (by decide)⟩

/-- C5: after a successful probe the wake mask of the device's GPE is
disarmed, and running the suspend hook then the resume hook brings it back
to exactly that post-init state (disarmed). -/
theorem suspend_resume_round_trip (acpi : AcpiFw) (s : FwState) (dev : surface_lid_device)
    (h : (surface_gpe_probe acpi s (some dev)).ret = 0) :
    (surface_gpe_resume acpi
        (surface_gpe_suspend acpi (surface_gpe_probe acpi s (some dev)).fw dev).fw
        dev).fw.wakeMask dev.gpe_number =
      (surface_gpe_probe acpi s (some dev)).fw.wakeMask dev.gpe_number ∧
    (surface_gpe_probe acpi s (some dev)).fw.wakeMask dev.gpe_number = false := by
  have hset : acpi.setWakeMaskOk dev.gpe_number false = true := by
    by_contra hc
    rw [Bool.not_eq_true] at hc
    unfold surface_gpe_probe surface_lid_enable_wakeup runCall at h
    by_cases h1 : acpi.getHandleOk dev.acpi_path <;>
      by_cases h2 : acpi.markOk dev.gpe_number <;>
        by_cases h3 : acpi.enableOk dev.gpe_number <;>
          simp [h1, h2, h3, hc, EFAULT] at h
  have hmask : (surface_gpe_probe acpi s (some dev)).fw.wakeMask dev.gpe_number = false := by
    unfold surface_gpe_probe surface_lid_enable_wakeup runCall at h ⊢
    by_cases h1 : acpi.getHandleOk dev.acpi_path <;>
      by_cases h2 : acpi.markOk dev.gpe_number <;>
        by_cases h3 : acpi.enableOk dev.gpe_number <;>
          simp [h1, h2, h3, hset, EFAULT] at h ⊢
  refine ⟨?_, hmask⟩
  unfold surface_gpe_resume surface_gpe_suspend surface_lid_enable_wakeup runCall
  by_cases harm : acpi.setWakeMaskOk dev.gpe_number true <;>
    simp [harm, hset, hmask]

/-- C5 witness: all-succeeding firmware, Surface Pro 4 lid device, starting
from the all-off state: probe succeeds and suspend-then-resume restores the
disarmed mask. -/
theorem suspend_resume_round_trip_witness :
    (surface_gpe_probe acpiAllOk fwState0 (some lid_device_l17)).ret = 0 ∧
    (surface_gpe_resume acpiAllOk
        (surface_gpe_suspend acpiAllOk
          (surface_gpe_probe acpiAllOk fwState0 (some lid_device_l17)).fw
          lid_device_l17).fw
        lid_device_l17).fw.wakeMask lid_device_l17.gpe_number =
      (surface_gpe_probe acpiAllOk fwState0 (some lid_device_l17)).fw.wakeMask
        lid_device_l17.gpe_number := by
  have h0 : (surface_gpe_probe acpiAllOk fwState0 (some lid_device_l17)).ret = 0 := by decide
  exact ⟨h0, (suspend_resume_round_trip acpiAllOk fwState0 lid_device_l17 h0).1⟩

/-- Firmware oracle on which every call fails. -/
def acpiAllFail : AcpiFw :=
  ⟨fun _ => false, fun _ => false, fun _ => false, fun _ => false, fun _ _ => false⟩

/-- C3: when the matcher selects an entry and `on_init` succeeds end to end
(the platform device is added and its probe returns 0), the run issues, in
order, exactly one handle lookup on the descriptor's path, one wake-marking,
one enable, and one `set_wake_mask(gpe, false)`, and ends registered with
drvdata set and the wake mask disarmed. -/
theorem on_init_matched_success (id : SystemIdentity) (hf : HostFaults) (acpi : AcpiFw)
    (s : FwState) (e : DmiSystemId)
    (hm : dmi_first_match id dmi_lid_device_table = some e)
    (hp : (on_init id hf acpi s).probeRet = some 0) :
    (on_init id hf acpi s).calls =
      [FwCall.getHandle e.driver_data.acpi_path,
       FwCall.markGpeForWake e.driver_data.gpe_number,
       FwCall.enableGpe e.driver_data.gpe_number,
       FwCall.setGpeWakeMask e.driver_data.gpe_number false] ∧
    (on_init id hf acpi s).drvdata = some e.driver_data ∧
    (on_init id hf acpi s).fw.wakeMask e.driver_data.gpe_number = false ∧
    (on_init id hf acpi s).host.surface_gpe_device = true ∧
    (on_init id hf acpi s).ret = 0 := by
  unfold on_init surface_gpe_init at hp ⊢
  rw [hm] at hp ⊢
  by_cases h1 : hf.driverRegisterStatus = 0
  case neg => simp [h1, hostState0] at hp
  by_cases h2 : hf.deviceAllocOk
  case neg => simp [h1, h2, hostState0] at hp
  by_cases h3 : hf.addDataStatus = 0
  case neg => simp [h1, h2, h3, hostState0] at hp
  by_cases h4 : hf.deviceAddStatus = 0
  case neg => simp [h1, h2, h3, h4, hostState0] at hp
  simp only [h1, h2, h3, h4, ne_eq, not_true_eq_false, Bool.not_true, if_false,
    ite_false, ite_true] at hp ⊢
  unfold surface_gpe_probe surface_lid_enable_wakeup runCall at hp ⊢
  by_cases g1 : acpi.getHandleOk e.driver_data.acpi_path
  case neg => simp [g1, EFAULT] at hp
  by_cases g2 : acpi.markOk e.driver_data.gpe_number
  case neg => simp [g1, g2, EFAULT] at hp
  by_cases g3 : acpi.enableOk e.driver_data.gpe_number
  case neg => simp [g1, g2, g3, EFAULT] at hp
  by_cases g4 : acpi.setWakeMaskOk e.driver_data.gpe_number false
  case neg => simp [g1, g2, g3, g4, EFAULT] at hp
  simp [g1, g2, g3, g4]

/-- C3 witness: Surface Pro 4 identity with all-succeeding oracles: `on_init`
issues exactly the four firmware calls on GPE 0x17 and registers. -/
theorem on_init_matched_success_witness :
    dmi_first_match identSP4 dmi_lid_device_table =
      some (dmi_lid_device_table.get ⟨0, by decide⟩) ∧
    (on_init identSP4 hostAllOk acpiAllOk fwState0).probeRet = some 0 ∧
    (on_init identSP4 hostAllOk acpiAllOk fwState0).calls =
      [FwCall.getHandle "\\_SB.LID0", FwCall.markGpeForWake 0x17,
       FwCall.enableGpe 0x17, FwCall.setGpeWakeMask 0x17 false] ∧
    (on_init identSP4 hostAllOk acpiAllOk fwState0).drvdata = some lid_device_l17 := by
  have hm : dmi_first_match identSP4 dmi_lid_device_table =
      some (dmi_lid_device_table.get ⟨0, by decide⟩) := by decide
  have hp : (on_init identSP4 hostAllOk acpiAllOk fwState0).probeRet = some 0 := by decide
  have h := on_init_matched_success identSP4 hostAllOk acpiAllOk fwState0
    (dmi_lid_device_table.get ⟨0, by decide⟩) hm hp
  exact ⟨hm, hp, h.1, h.2.1⟩

/-- C4: whenever probe runs on a matched descriptor and returns a nonzero
status, that status is `-EFAULT`, drvdata stays unset (Unregistered), the
best-effort disable is issued whenever the enable had succeeded and the
mask set failed, and — provided the firmware disable itself succeeds — the
GPE enable count is restored to its pre-probe value. -/
theorem surface_gpe_probe_failure_rollback (acpi : AcpiFw) (s : FwState)
    (dev : surface_lid_device)
    (h : (surface_gpe_probe acpi s (some dev)).ret ≠ 0) :
    (surface_gpe_probe acpi s (some dev)).ret = -EFAULT ∧
    (surface_gpe_probe acpi s (some dev)).drvdata = none ∧
    (acpi.getHandleOk dev.acpi_path = true → acpi.markOk dev.gpe_number = true →
      acpi.enableOk dev.gpe_number = true →
      acpi.setWakeMaskOk dev.gpe_number false = false →
      FwCall.disableGpe dev.gpe_number ∈ (surface_gpe_probe acpi s (some dev)).calls) ∧
    (acpi.disableOk dev.gpe_number = true →
      (surface_gpe_probe acpi s (some dev)).fw.gpeEnabled dev.gpe_number =
        s.gpeEnabled dev.gpe_number) := by
  unfold surface_gpe_probe surface_lid_enable_wakeup runCall at h ⊢
  by_cases g1 : acpi.getHandleOk dev.acpi_path
  case neg => simp [g1]
  by_cases g2 : acpi.markOk dev.gpe_number
  case neg => simp [g1, g2]
  by_cases g3 : acpi.enableOk dev.gpe_number
  case neg => simp [g1, g2, g3]
  by_cases g4 : acpi.setWakeMaskOk dev.gpe_number false
  case pos => simp [g1, g2, g3, g4] at h
  by_cases g5 : acpi.disableOk dev.gpe_number <;>
    simp [g1, g2, g3, g4, g5, EFAULT]

/-- C4 witness: firmware on which only the wake-mask set fails: probe
returns `-EFAULT`, stays unregistered, issues the best-effort disable, and
the enable count is back at 0. -/
theorem surface_gpe_probe_failure_rollback_witness :
    (surface_gpe_probe
        ⟨fun _ => true, fun _ => true, fun _ => true, fun _ => true, fun _ e => e⟩
        fwState0 (some lid_device_l17)).ret ≠ 0 ∧
    (surface_gpe_probe
        ⟨fun _ => true, fun _ => true, fun _ => true, fun _ => true, fun _ e => e⟩
        fwState0 (some lid_device_l17)).ret = -EFAULT ∧
    (surface_gpe_probe
        ⟨fun _ => true, fun _ => true, fun _ => true, fun _ => true, fun _ e => e⟩
        fwState0 (some lid_device_l17)).drvdata = none ∧
    FwCall.disableGpe 0x17 ∈ (surface_gpe_probe
        ⟨fun _ => true, fun _ => true, fun _ => true, fun _ => true, fun _ e => e⟩
        fwState0 (some lid_device_l17)).calls ∧
    (surface_gpe_probe
        ⟨fun _ => true, fun _ => true, fun _ => true, fun _ => true, fun _ e => e⟩
        fwState0 (some lid_device_l17)).fw.gpeEnabled 0x17 = fwState0.gpeEnabled 0x17 := by
  have hne : (surface_gpe_probe
      ⟨fun _ => true, fun _ => true, fun _ => true, fun _ => true, fun _ e => e⟩
      fwState0 (some lid_device_l17)).ret ≠ 0 := by decide
  have h := surface_gpe_probe_failure_rollback
    ⟨fun _ => true, fun _ => true, fun _ => true, fun _ => true, fun _ e => e⟩
    fwState0 lid_device_l17 hne
  exact ⟨hne, h.1, h.2.1, h.2.2.1 rfl rfl rfl rfl, h.2.2.2 rfl⟩

/-- C7: remove always issues both cleanup calls in order — wake mask to
disabled, then GPE disable — whatever the firmware outcomes (no short
circuit), returns 0 and clears drvdata (Unregistered); when the firmware
calls succeed the default is restored: mask disarmed and the enable count
decremented. -/
theorem surface_gpe_remove_cleanup (acpi : AcpiFw) (s : FwState) (dev : surface_lid_device) :
    (surface_gpe_remove acpi s dev).calls =
      [FwCall.setGpeWakeMask dev.gpe_number false, FwCall.disableGpe dev.gpe_number] ∧
    (surface_gpe_remove acpi s dev).ret = 0 ∧
    (surface_gpe_remove acpi s dev).drvdata = none ∧
    (acpi.setWakeMaskOk dev.gpe_number false = true →
      (surface_gpe_remove acpi s dev).fw.wakeMask dev.gpe_number = false) ∧
    (acpi.disableOk dev.gpe_number = true →
      (surface_gpe_remove acpi s dev).fw.gpeEnabled dev.gpe_number =
        s.gpeEnabled dev.gpe_number - 1) := by
  unfold surface_gpe_remove surface_lid_enable_wakeup runCall
  by_cases g1 : acpi.setWakeMaskOk dev.gpe_number false <;>
    by_cases g2 : acpi.disableOk dev.gpe_number <;>
      simp [g1, g2]

/-- C7 witness: even with every firmware call failing, remove still issues
both cleanup calls and ends unregistered; and with all calls succeeding the
mask is disarmed. -/
theorem surface_gpe_remove_cleanup_witness :
    (surface_gpe_remove acpiAllFail fwState0 lid_device_l17).calls =
      [FwCall.setGpeWakeMask 0x17 false, FwCall.disableGpe 0x17] ∧
    (surface_gpe_remove acpiAllFail fwState0 lid_device_l17).drvdata = none ∧
    (surface_gpe_remove acpiAllOk fwState0 lid_device_l17).fw.wakeMask 0x17 = false := by
  have h1 := surface_gpe_remove_cleanup acpiAllFail fwState0 lid_device_l17
  have h2 := surface_gpe_remove_cleanup acpiAllOk fwState0 lid_device_l17
  exact ⟨h1.1, h1.2.2.1, h2.2.2.2.1 rfl⟩

/-- C8: when the global device pointer was never set (no descriptor
registered), module exit is a pure no-op: no firmware calls, host and
firmware state unchanged. -/
theorem surface_gpe_exit_no_device (acpi : AcpiFw) (hs : HostState)
    (drv : Option surface_lid_device) (s : FwState)
    (h : hs.surface_gpe_device = false) :
    surface_gpe_exit acpi hs drv s = ⟨hs, [], s⟩ := by
  unfold surface_gpe_exit
  simp [h]

/-- C8 witness: exit from the pristine state is a no-op. -/
theorem surface_gpe_exit_no_device_witness :
    surface_gpe_exit acpiAllOk hostState0 none fwState0 = ⟨hostState0, [], fwState0⟩ :=
  surface_gpe_exit_no_device acpiAllOk hostState0 none fwState0 rfl

/-- C9: every firmware-call failure during registration, suspend or resume
surfaces as the one fixed value `-EFAULT`, whichever call failed. -/
theorem firmware_error_single_value (acpi : AcpiFw) (s : FwState) (dev : surface_lid_device) :
    ((surface_gpe_probe acpi s (some dev)).ret ≠ 0 →
      (surface_gpe_probe acpi s (some dev)).ret = -EFAULT) ∧
    ((surface_gpe_suspend acpi s dev).ret ≠ 0 →
      (surface_gpe_suspend acpi s dev).ret = -EFAULT) ∧
    ((surface_gpe_resume acpi s dev).ret ≠ 0 →
      (surface_gpe_resume acpi s dev).ret = -EFAULT) := by
  refine ⟨fun h => ?_, fun h => ?_, fun h => ?_⟩
  · unfold surface_gpe_probe surface_lid_enable_wakeup runCall at h ⊢
    by_cases g1 : acpi.getHandleOk dev.acpi_path
    case neg => simp [g1]
    by_cases g2 : acpi.markOk dev.gpe_number
    case neg => simp [g1, g2]
    by_cases g3 : acpi.enableOk dev.gpe_number
    case neg => simp [g1, g2, g3]
    by_cases g4 : acpi.setWakeMaskOk dev.gpe_number false
    case pos => simp [g1, g2, g3, g4] at h
    by_cases g5 : acpi.disableOk dev.gpe_number <;> simp [g1, g2, g3, g4, g5, EFAULT]
  · unfold surface_gpe_suspend surface_lid_enable_wakeup runCall at h ⊢
    by_cases g : acpi.setWakeMaskOk dev.gpe_number true <;> simp [g] at h ⊢
  · unfold surface_gpe_resume surface_lid_enable_wakeup runCall at h ⊢
    by_cases g : acpi.setWakeMaskOk dev.gpe_number false <;> simp [g] at h ⊢

/-- C9 witness: with every firmware call failing, probe, suspend and resume
each report exactly `-EFAULT`. -/
theorem firmware_error_single_value_witness :
    (surface_gpe_probe acpiAllFail fwState0 (some lid_device_l17)).ret = -EFAULT ∧
    (surface_gpe_suspend acpiAllFail fwState0 lid_device_l17).ret = -EFAULT ∧
    (surface_gpe_resume acpiAllFail fwState0 lid_device_l17).ret = -EFAULT := by
  have h := firmware_error_single_value acpiAllFail fwState0 lid_device_l17
  exact ⟨h.1 (by decide), h.2.1 (by decide), h.2.2 (by decide)⟩

/-- C10: with a match found, if any of the four init steps (driver
registration, device allocation, data attach, device addition) fails, init
returns a nonzero error, every completed step has been undone (the host
state is back to the pristine one, global pointer unset), and a subsequent
module exit in that state is a pure no-op. -/
theorem surface_gpe_init_failure_atomic (id : SystemIdentity) (hf : HostFaults)
    (acpi : AcpiFw) (drv : Option surface_lid_device) (s : FwState) (e : DmiSystemId)
    (hm : dmi_first_match id dmi_lid_device_table = some e)
    (hfail : hf.driverRegisterStatus ≠ 0 ∨ hf.deviceAllocOk = false ∨
      hf.addDataStatus ≠ 0 ∨ hf.deviceAddStatus ≠ 0) :
    (surface_gpe_init id hf).ret ≠ 0 ∧
    (surface_gpe_init id hf).host = hostState0 ∧
    surface_gpe_exit acpi (surface_gpe_init id hf).host drv s =
      ⟨(surface_gpe_init id hf).host, [], s⟩ := by
  have hhost : (surface_gpe_init id hf).ret ≠ 0 ∧ (surface_gpe_init id hf).host = hostState0 := by
    unfold surface_gpe_init
    rw [hm]
    by_cases h1 : hf.driverRegisterStatus = 0
    case neg => simp [h1, hostState0]
    by_cases h2 : hf.deviceAllocOk
    case neg => simp [h1, h2, hostState0]; decide
    by_cases h3 : hf.addDataStatus = 0
    case neg => simp [h1, h2, h3, hostState0]
    by_cases h4 : hf.deviceAddStatus = 0
    case neg => simp [h1, h2, h3, h4, hostState0]
    simp [h1, h2, h3, h4] at hfail
  refine ⟨hhost.1, hhost.2, ?_⟩
  rw [hhost.2]
  exact surface_gpe_exit_no_device acpi hostState0 drv s rfl

/-- C10 witness: Surface Pro 4 identity, driver registration failing with
status -1: init reports the error, the host state is pristine, and exit is a
no-op. -/
theorem surface_gpe_init_failure_atomic_witness :
    (surface_gpe_init identSP4 ⟨-1, true, 0, 0⟩).ret ≠ 0 ∧
    (surface_gpe_init identSP4 ⟨-1, true, 0, 0⟩).host = hostState0 ∧
    surface_gpe_exit acpiAllOk (surface_gpe_init identSP4 ⟨-1, true, 0, 0⟩).host none fwState0 =
      ⟨(surface_gpe_init identSP4 ⟨-1, true, 0, 0⟩).host, [], fwState0⟩ :=
  surface_gpe_init_failure_atomic identSP4 ⟨-1, true, 0, 0⟩ acpiAllOk none fwState0
    (dmi_lid_device_table.get ⟨0, by decide⟩) (by decide) (Or.inl (by decide))
